import Mathlib

/-!
Shallow embedding of the SuperPoll database layer (`src/core/database.py`)
and the demographic-form rendering logic of `src/views/voter_ui.py`.

The SQLite store is modelled as lists of rows, one list per table, mirrored
field by field from the `CREATE TABLE` statements in `init_db`.  Each SQL
statement of the embedded functions is translated into the corresponding
list operation (DELETE = `filter`, INSERT = append, `ORDER BY` = `mergeSort`,
`LEFT JOIN` = an explicit join producing a null-padded row when no partner
matches, `GROUP BY o.id` = one output row per option row, relying on
`options.id` being the table's primary key).  `AUTOINCREMENT` primary keys
are modelled with explicit next-id counters in the store.

JSON-encoded TEXT columns (`demographic_data`, `location_data`) are modelled
by `StoredText`: `enc m` stands for text that `json.loads` decodes to the
string-keyed map `m` (as produced by `json.dumps`), and `bad s` stands for
text on which decoding raises.  A SQL `NULL` column is `Option.none`.
-/

/-- A stored JSON text column: either text that decodes to a string map
(the only thing `submit_response` ever writes), or undecodable text. -/
inductive StoredText where
  | enc (m : List (String × String))
  | bad (s : String)
deriving DecidableEq, Repr

/-- Row of table `campaigns`. -/
structure RowCampaign where
  id : Nat
  title : String
  description : String
  is_active : Bool
  created_at : Nat
deriving DecidableEq, Repr

/-- Row of table `questions`. -/
structure RowQuestion where
  id : Nat
  campaign_id : Nat
  question_text : String
  question_type : String
  max_selections : Nat
  display_order : Nat
deriving DecidableEq, Repr

/-- Row of table `options`. -/
structure RowOption where
  id : Nat
  question_id : Nat
  option_text : String
  image_url : Option String
  bg_color : String
  display_order : Nat
deriving DecidableEq, Repr

/-- Row of table `responses`. -/
structure RowResponse where
  id : Nat
  campaign_id : Nat
  demographic_data : Option StoredText
  ip_address : Option String
  user_agent : Option String
  location_data : Option StoredText
  created_at : Nat
deriving DecidableEq, Repr

/-- Row of table `response_details`. -/
structure RowResponseDetail where
  id : Nat
  response_id : Nat
  question_id : Nat
  option_id : Nat
deriving DecidableEq, Repr

/-- Row of table `demographic_attributes`. -/
structure RowDemographicAttribute where
  id : Nat
  name : String
  label : String
  input_type : String
  display_order : Nat
  is_active : Bool
deriving DecidableEq, Repr

/-- Row of table `demographic_options`. -/
structure RowDemographicOption where
  id : Nat
  attribute_id : Nat
  option_text : String
  display_order : Nat
deriving DecidableEq, Repr

/-- Row of table `campaign_demographics`. -/
structure RowCampaignDemographic where
  id : Nat
  campaign_id : Nat
  attribute_id : Nat
  is_required : Bool
  display_order : Nat
deriving DecidableEq, Repr

/-- The SQLite store: one list per table (insertion order), plus the
`AUTOINCREMENT` counters of the tables the embedded operations insert into. -/
structure DB where
  campaigns : List RowCampaign
  questions : List RowQuestion
  options : List RowOption
  responses : List RowResponse
  response_details : List RowResponseDetail
  demographic_attributes : List RowDemographicAttribute
  demographic_options : List RowDemographicOption
  campaign_demographics : List RowCampaignDemographic
  next_option_id : Nat
  next_response_id : Nat
  next_detail_id : Nat
  now : Nat
deriving DecidableEq, Repr

/-! ## delete_campaign (database.py lines 324-344)

Each `DELETE` statement becomes one function; `delete_campaign` is their
composition in the order the Python function executes them:
response_details, responses, options, questions, campaigns. -/

/-- `DELETE FROM response_details WHERE response_id IN
(SELECT id FROM responses WHERE campaign_id = ?)`. -/
def del_response_details_of (cid : Nat) (db : DB) : DB :=
  { db with response_details := db.response_details.filter (fun rd =>
      !(db.responses.any (fun r => r.id == rd.response_id && r.campaign_id == cid))) }

/-- `DELETE FROM responses WHERE campaign_id = ?`. -/
def del_responses_of (cid : Nat) (db : DB) : DB :=
  { db with responses := db.responses.filter (fun r => !(r.campaign_id == cid)) }

/-- `DELETE FROM options WHERE question_id IN
(SELECT id FROM questions WHERE campaign_id = ?)`. -/
def del_options_of (cid : Nat) (db : DB) : DB :=
  { db with options := db.options.filter (fun o =>
      !(db.questions.any (fun q => q.id == o.question_id && q.campaign_id == cid))) }

/-- `DELETE FROM questions WHERE campaign_id = ?`. -/
def del_questions_of (cid : Nat) (db : DB) : DB :=
  { db with questions := db.questions.filter (fun q => !(q.campaign_id == cid)) }

/-- `DELETE FROM campaigns WHERE id = ?`. -/
def del_campaign_row (cid : Nat) (db : DB) : DB :=
  { db with campaigns := db.campaigns.filter (fun cp => !(cp.id == cid)) }

/-- `delete_campaign`: the five deletes in the order of the Python source. -/
def delete_campaign (cid : Nat) (db : DB) : DB :=
  del_campaign_row cid (del_questions_of cid (del_options_of cid
    (del_responses_of cid (del_response_details_of cid db))))

/-! ### Helper lemmas about delete_campaign -/

lemma delete_campaign_campaigns (cid : Nat) (db : DB) :
    (delete_campaign cid db).campaigns =
      db.campaigns.filter (fun cp => !(cp.id == cid)) := rfl

lemma delete_campaign_questions (cid : Nat) (db : DB) :
    (delete_campaign cid db).questions =
      db.questions.filter (fun q => !(q.campaign_id == cid)) := rfl

lemma delete_campaign_responses (cid : Nat) (db : DB) :
    (delete_campaign cid db).responses =
      db.responses.filter (fun r => !(r.campaign_id == cid)) := rfl

lemma delete_campaign_options (cid : Nat) (db : DB) :
    (delete_campaign cid db).options =
      db.options.filter (fun o =>
        !(db.questions.any (fun q => q.id == o.question_id && q.campaign_id == cid))) := rfl

lemma delete_campaign_details (cid : Nat) (db : DB) :
    (delete_campaign cid db).response_details =
      db.response_details.filter (fun rd =>
        !(db.responses.any (fun r => r.id == rd.response_id && r.campaign_id == cid))) := rfl

lemma delete_campaign_no_campaign (cid : Nat) (db : DB) :
    ∀ cp ∈ (delete_campaign cid db).campaigns, cp.id ≠ cid := by
  intro cp hcp
  rw [delete_campaign_campaigns] at hcp
  have := List.of_mem_filter hcp
  simpa using this

lemma delete_campaign_no_question (cid : Nat) (db : DB) :
    ∀ q ∈ (delete_campaign cid db).questions, q.campaign_id ≠ cid := by
  intro q hq
  rw [delete_campaign_questions] at hq
  have := List.of_mem_filter hq
  simpa using this

lemma delete_campaign_no_response (cid : Nat) (db : DB) :
    ∀ r ∈ (delete_campaign cid db).responses, r.campaign_id ≠ cid := by
  intro r hr
  rw [delete_campaign_responses] at hr
  have := List.of_mem_filter hr
  simpa using this

lemma delete_campaign_no_option (cid : Nat) (db : DB) :
    ∀ o ∈ (delete_campaign cid db).options,
      ∀ q ∈ db.questions, q.campaign_id = cid → o.question_id ≠ q.id := by
  intro o ho q hq hqc
  rw [delete_campaign_options] at ho
  have h := List.of_mem_filter ho
  simp only [Bool.not_eq_true', List.any_eq_false, Bool.and_eq_true, beq_iff_eq] at h
  intro hoq
  exact h q hq ⟨hoq.symm, hqc⟩

lemma delete_campaign_no_detail (cid : Nat) (db : DB) :
    ∀ rd ∈ (delete_campaign cid db).response_details,
      ∀ r ∈ db.responses, r.campaign_id = cid → rd.response_id ≠ r.id := by
  intro rd hrd r hr hrc
  rw [delete_campaign_details] at hrd
  have h := List.of_mem_filter hrd
  simp only [Bool.not_eq_true', List.any_eq_false, Bool.and_eq_true, beq_iff_eq] at h
  intro hrr
  exact h r hr ⟨hrr.symm, hrc⟩

/-- C1: after `delete_campaign cid`, no Campaign row with id `cid`, no
Question/Response row referencing `cid`, no Option row referencing a question
of the campaign, no ResponseDetail row referencing a response of the campaign
(both taken from the pre-delete store, as the code's subqueries do); and
`delete_campaign` is exactly the composition of the five per-table deletes in
the dependency order ResponseDetail, Response, Option, Question, Campaign. -/
theorem delete_campaign_removes_all (cid : Nat) (db : DB) :
    (∀ cp ∈ (delete_campaign cid db).campaigns, cp.id ≠ cid) ∧
    (∀ q ∈ (delete_campaign cid db).questions, q.campaign_id ≠ cid) ∧
    (∀ r ∈ (delete_campaign cid db).responses, r.campaign_id ≠ cid) ∧
    (∀ o ∈ (delete_campaign cid db).options,
        ∀ q ∈ db.questions, q.campaign_id = cid → o.question_id ≠ q.id) ∧
    (∀ rd ∈ (delete_campaign cid db).response_details,
        ∀ r ∈ db.responses, r.campaign_id = cid → rd.response_id ≠ r.id) ∧
    delete_campaign cid db =
      del_campaign_row cid (del_questions_of cid (del_options_of cid
        (del_responses_of cid (del_response_details_of cid db)))) :=
  ⟨delete_campaign_no_campaign cid db, delete_campaign_no_question cid db,
   delete_campaign_no_response cid db, delete_campaign_no_option cid db,
   delete_campaign_no_detail cid db, rfl⟩

/-- A tiny concrete store used by the witness theorems: one campaign (id 1)
with one question, one option, one response and one response detail. -/
def wDB : DB where
  campaigns := [⟨1, "Poll", "", true, 0⟩]
  questions := [⟨1, 1, "Q1", "single", 1, 1⟩]
  options := [⟨1, 1, "A", none, "#ffffff", 0⟩, ⟨2, 1, "B", none, "#ffffff", 1⟩]
  responses := [⟨1, 1, some (.enc [("เพศ", "ชาย")]), some "127.0.0.1", none, none, 5⟩]
  response_details := [⟨1, 1, 1, 2⟩]
  demographic_attributes := [⟨1, "gender", "เพศ", "select", 1, true⟩]
  demographic_options := [⟨1, 1, "ชาย", 0⟩, ⟨2, 1, "หญิง", 1⟩]
  campaign_demographics := []
  next_option_id := 3
  next_response_id := 2
  next_detail_id := 2
  now := 9

/-- Witness for C1 at the concrete store `wDB` and campaign id 1. -/
theorem delete_campaign_removes_all_witness :
    (∀ cp ∈ (delete_campaign 1 wDB).campaigns, cp.id ≠ 1) ∧
    (∀ rd ∈ (delete_campaign 1 wDB).response_details,
        ∀ r ∈ wDB.responses, r.campaign_id = 1 → rd.response_id ≠ r.id) :=
  ⟨(delete_campaign_removes_all 1 wDB).1,
   (delete_campaign_removes_all 1 wDB).2.2.2.2.1⟩

/-- C10: `delete_campaign` does not touch the `campaign_demographics` table:
the table is unchanged, so every join row referencing the deleted campaign
survives (dangling), even though the campaign's Campaign, Question, Option,
Response and ResponseDetail rows are all removed. -/
theorem delete_campaign_frame_campaign_demographics (cid : Nat) (db : DB) :
    (delete_campaign cid db).campaign_demographics = db.campaign_demographics ∧
    (∀ cd ∈ db.campaign_demographics, cd.campaign_id = cid →
        cd ∈ (delete_campaign cid db).campaign_demographics) ∧
    (∀ cp ∈ (delete_campaign cid db).campaigns, cp.id ≠ cid) ∧
    (∀ q ∈ (delete_campaign cid db).questions, q.campaign_id ≠ cid) ∧
    (∀ r ∈ (delete_campaign cid db).responses, r.campaign_id ≠ cid) ∧
    (∀ o ∈ (delete_campaign cid db).options,
        ∀ q ∈ db.questions, q.campaign_id = cid → o.question_id ≠ q.id) ∧
    (∀ rd ∈ (delete_campaign cid db).response_details,
        ∀ r ∈ db.responses, r.campaign_id = cid → rd.response_id ≠ r.id) :=
  ⟨rfl, fun _cd hcd _ => hcd, delete_campaign_no_campaign cid db,
   delete_campaign_no_question cid db, delete_campaign_no_response cid db,
   delete_campaign_no_option cid db, delete_campaign_no_detail cid db⟩

/-- A store like `wDB` but with a `campaign_demographics` row for campaign 1,
used to witness the dangling-join-row claim. -/
def wDBcd : DB :=
  { wDB with campaign_demographics := [⟨1, 1, 1, true, 0⟩] }

/-- Witness for C10 at the concrete store `wDBcd` and campaign id 1: the join
row survives the delete while the campaign row itself is gone. -/
theorem delete_campaign_frame_witness :
    ((⟨1, 1, 1, true, 0⟩ : RowCampaignDemographic) ∈
        (delete_campaign 1 wDBcd).campaign_demographics) ∧
    (∀ cp ∈ (delete_campaign 1 wDBcd).campaigns, cp.id ≠ 1) :=
  ⟨(delete_campaign_frame_campaign_demographics 1 wDBcd).2.1
      ⟨1, 1, 1, true, 0⟩ (by decide) rfl,
   (delete_campaign_frame_campaign_demographics 1 wDBcd).2.2.1⟩

/-! ## submit_response (database.py lines 463-498)

Python `answers` is a dict `question_id -> selection`; a selection is either
a single option id (`single` questions) or a list of option ids (`multi`).
The dict is modelled as an association list in iteration order. -/

/-- One value of the Python `answers` dict: a scalar option id or a list. -/
inductive Selection where
  | scalar (oid : Nat)
  | multi (oids : List Nat)
deriving DecidableEq, Repr

/-- The option ids a selection stands for: one for a scalar, the listed ids
for a list. -/
def selOptionIds : Selection → List Nat
  | .scalar oid => [oid]
  | .multi oids => oids

/-- The `response_details` rows inserted for a list-valued selection,
threading the AUTOINCREMENT id. -/
def multi_rows (rid qid : Nat) : List Nat → Nat → List RowResponseDetail
  | [], _ => []
  | oid :: rest, nid => ⟨nid, rid, qid, oid⟩ :: multi_rows rid qid rest (nid + 1)

/-- The `response_details` rows inserted by the `for question_id, option_ids
in answers.items()` loop of `submit_response`, threading the AUTOINCREMENT id. -/
def detail_rows (rid : Nat) : List (Nat × Selection) → Nat → List RowResponseDetail
  | [], _ => []
  | (qid, .scalar oid) :: rest, nid => ⟨nid, rid, qid, oid⟩ :: detail_rows rid rest (nid + 1)
  | (qid, .multi oids) :: rest, nid =>
      multi_rows rid qid oids nid ++ detail_rows rid rest (nid + oids.length)

/-- `submit_response`: inserts one `responses` row (demographic map always
JSON-encoded; location map encoded only when truthy, i.e. non-`None` and
non-empty, else SQL NULL — `json.dumps(location_data) if location_data else
None`), then the detail rows, and returns the new response id. No campaign
lookup is performed. -/
def submit_response (cid : Nat) (demographic_data : List (String × String))
    (answers : List (Nat × Selection)) (ip_address user_agent : Option String)
    (location_data : Option (List (String × String))) (db : DB) : Nat × DB :=
  let response_id := db.next_response_id
  let locStored : Option StoredText :=
    match location_data with
    | none => none
    | some m => if m.isEmpty then none else some (.enc m)
  let row : RowResponse :=
    ⟨response_id, cid, some (.enc demographic_data), ip_address, user_agent,
     locStored, db.now⟩
  let newDetails := detail_rows response_id answers db.next_detail_id
  (response_id,
   { db with
     responses := db.responses ++ [row]
     response_details := db.response_details ++ newDetails
     next_response_id := response_id + 1
     next_detail_id := db.next_detail_id + newDetails.length })

lemma multi_rows_map (rid qid : Nat) (oids : List Nat) (nid : Nat) :
    (multi_rows rid qid oids nid).map
        (fun d => (d.response_id, d.question_id, d.option_id)) =
      oids.map (fun oid => (rid, qid, oid)) := by
  induction oids generalizing nid with
  | nil => rfl
  | cons oid rest ih => simp [multi_rows, ih]

lemma detail_rows_map (rid : Nat) (answers : List (Nat × Selection)) (nid : Nat) :
    (detail_rows rid answers nid).map
        (fun d => (d.response_id, d.question_id, d.option_id)) =
      answers.flatMap (fun p => (selOptionIds p.2).map (fun oid => (rid, p.1, oid))) := by
  induction answers generalizing nid with
  | nil => rfl
  | cons p rest ih =>
    obtain ⟨qid, sel⟩ := p
    cases sel with
    | scalar oid => simp [detail_rows, selOptionIds, ih]
    | multi oids => simp [detail_rows, selOptionIds, ih, multi_rows_map]

/-- C5: for every campaign id — with no assumption that a Campaign row with
that id exists, since `submit_response` never consults the `campaigns`
table — `submit_response` appends exactly one Response row (carrying the
given campaign id and the returned id), appends exactly the ResponseDetail
rows given by the answers map (one per scalar selection, one per listed
option id of a list selection, in order), leaves `campaigns` untouched, and
returns the new Response row's id. -/
theorem submit_response_inserts (cid : Nat) (demo : List (String × String))
    (answers : List (Nat × Selection)) (ip ua : Option String)
    (loc : Option (List (String × String))) (db : DB) :
    (submit_response cid demo answers ip ua loc db).1 = db.next_response_id ∧
    (∃ row : RowResponse,
        (submit_response cid demo answers ip ua loc db).2.responses =
          db.responses ++ [row] ∧
        row.id = (submit_response cid demo answers ip ua loc db).1 ∧
        row.campaign_id = cid) ∧
    (∃ newDetails : List RowResponseDetail,
        (submit_response cid demo answers ip ua loc db).2.response_details =
          db.response_details ++ newDetails ∧
        newDetails.map (fun d => (d.response_id, d.question_id, d.option_id)) =
          answers.flatMap (fun p => (selOptionIds p.2).map
            (fun oid => ((submit_response cid demo answers ip ua loc db).1, p.1, oid)))) ∧
    (submit_response cid demo answers ip ua loc db).2.campaigns = db.campaigns := by
  refine ⟨rfl, ⟨_, rfl, rfl, rfl⟩, ⟨detail_rows db.next_response_id answers db.next_detail_id,
    rfl, detail_rows_map _ _ _⟩, rfl⟩

/-! ## get_voter_logs (database.py lines 507-531) -/

/-- The safe JSON decode used by the readers: a NULL or empty column reads as
`{}` (the column is falsy), text that decodes yields its map, and a decode
failure is swallowed into `{}`. -/
def decodeMap : Option StoredText → List (String × String)
  | none => []
  | some (.enc m) => m
  | some (.bad _) => []

/-- Whether the stored column would take the fallback branch: absent (NULL)
or undecodable text. -/
def decode_failed : Option StoredText → Bool
  | none => true
  | some (.bad _) => true
  | some (.enc _) => false

/-- One entry of the list `get_voter_logs` returns: the response row with its
two JSON columns decoded. -/
structure VoterLog where
  id : Nat
  campaign_id : Nat
  demographic_data : List (String × String)
  ip_address : Option String
  user_agent : Option String
  location_data : List (String × String)
  created_at : Nat
deriving DecidableEq, Repr

/-- Decoding of one `responses` row into a log entry. -/
def rowToLog (r : RowResponse) : VoterLog :=
  ⟨r.id, r.campaign_id, decodeMap r.demographic_data, r.ip_address, r.user_agent,
   decodeMap r.location_data, r.created_at⟩

/-- `get_voter_logs`: `SELECT * FROM responses WHERE campaign_id = ? ORDER BY
created_at DESC`, then the lenient JSON decode of both text columns. -/
def get_voter_logs (cid : Nat) (db : DB) : List VoterLog :=
  (((db.responses.filter (fun r => r.campaign_id == cid)).insertionSort
      (fun a b => b.created_at ≤ a.created_at)).map rowToLog)

lemma get_voter_logs_mem (cid : Nat) (db : DB) (log : VoterLog)
    (h : log ∈ get_voter_logs cid db) :
    ∃ r ∈ db.responses, r.campaign_id = cid ∧ rowToLog r = log := by
  unfold get_voter_logs at h
  obtain ⟨r, hr, hrl⟩ := List.mem_map.mp h
  have hrf : r ∈ db.responses.filter (fun r => r.campaign_id == cid) :=
    (List.perm_insertionSort _ _).mem_iff.mp hr
  have := List.mem_filter.mp hrf
  exact ⟨r, this.1, by simpa using this.2, hrl⟩

lemma mem_get_voter_logs (cid : Nat) (db : DB) (r : RowResponse)
    (hr : r ∈ db.responses) (hc : r.campaign_id = cid) :
    rowToLog r ∈ get_voter_logs cid db := by
  unfold get_voter_logs
  refine List.mem_map_of_mem rowToLog ?_
  refine (List.perm_insertionSort _ _).mem_iff.mpr ?_
  exact List.mem_filter.mpr ⟨hr, by simpa using hc⟩

/-- C9: `get_voter_logs` lists the campaign's responses newest-first (the
returned list is pairwise non-increasing in `created_at` and its ids are a
permutation of the ids of the campaign's Response rows), and every returned
entry carries the lenient decode of its stored demographic/location text: in
particular an absent or undecodable column reads as the empty map, and no
decode error escapes (the decode is a total function). -/
theorem get_voter_logs_spec (cid : Nat) (db : DB) :
    (get_voter_logs cid db).Pairwise (fun a b => b.created_at ≤ a.created_at) ∧
    ((get_voter_logs cid db).map VoterLog.id).Perm
      ((db.responses.filter (fun r => r.campaign_id == cid)).map RowResponse.id) ∧
    (∀ log ∈ get_voter_logs cid db, ∃ r ∈ db.responses,
        r.campaign_id = cid ∧ log.id = r.id ∧
        log.demographic_data = decodeMap r.demographic_data ∧
        log.location_data = decodeMap r.location_data ∧
        (decode_failed r.demographic_data = true → log.demographic_data = []) ∧
        (decode_failed r.location_data = true → log.location_data = [])) := by
  refine ⟨?_, ?_, ?_⟩
  · unfold get_voter_logs
    refine List.pairwise_map.mpr ?_
    haveI : IsTotal RowResponse (fun a b => b.created_at ≤ a.created_at) :=
      ⟨fun a b => Nat.le_total b.created_at a.created_at⟩
    haveI : IsTrans RowResponse (fun a b => b.created_at ≤ a.created_at) :=
      ⟨fun _ _ _ hxy hyz => Nat.le_trans hyz hxy⟩
    have hs := List.sorted_insertionSort
      (fun a b : RowResponse => b.created_at ≤ a.created_at)
      (db.responses.filter (fun r => r.campaign_id == cid))
    exact hs.imp (fun h => h)
  · unfold get_voter_logs
    rw [List.map_map]
    have hperm := (List.perm_insertionSort
      (fun a b => b.created_at ≤ a.created_at)
      (db.responses.filter (fun r => r.campaign_id == cid))).map (VoterLog.id ∘ rowToLog)
    refine hperm.trans ?_
    have : (VoterLog.id ∘ rowToLog) = RowResponse.id := rfl
    rw [this]
  · intro log hlog
    obtain ⟨r, hr, hc, hrl⟩ := get_voter_logs_mem cid db log hlog
    subst hrl
    refine ⟨r, hr, hc, rfl, rfl, rfl, ?_, ?_⟩
    · intro hfail
      cases hd : r.demographic_data with
      | none => simp [rowToLog, decodeMap, hd]
      | some st =>
        cases st with
        | enc m => rw [hd] at hfail; simp [decode_failed] at hfail
        | bad s => simp [rowToLog, decodeMap, hd]
    · intro hfail
      cases hd : r.location_data with
      | none => simp [rowToLog, decodeMap, hd]
      | some st =>
        cases st with
        | enc m => rw [hd] at hfail; simp [decode_failed] at hfail
        | bad s => simp [rowToLog, decodeMap, hd]

/-- Witness for C9: the single response of `wDB` surfaces in the logs of
campaign 1 with its demographic map decoded and its NULL location column read
as the empty map. -/
theorem get_voter_logs_spec_witness :
    ∃ r ∈ wDB.responses,
      r.campaign_id = 1 ∧
      (⟨1, 1, [("เพศ", "ชาย")], some "127.0.0.1", none, [], 5⟩ : VoterLog).id = r.id ∧
      (⟨1, 1, [("เพศ", "ชาย")], some "127.0.0.1", none, [], 5⟩ : VoterLog).demographic_data =
        decodeMap r.demographic_data ∧
      (⟨1, 1, [("เพศ", "ชาย")], some "127.0.0.1", none, [], 5⟩ : VoterLog).location_data =
        decodeMap r.location_data ∧
      (decode_failed r.demographic_data = true →
        (⟨1, 1, [("เพศ", "ชาย")], some "127.0.0.1", none, [], 5⟩ : VoterLog).demographic_data = []) ∧
      (decode_failed r.location_data = true →
        (⟨1, 1, [("เพศ", "ชาย")], some "127.0.0.1", none, [], 5⟩ : VoterLog).location_data = []) :=
  (get_voter_logs_spec 1 wDB).2.2
    ⟨1, 1, [("เพศ", "ชาย")], some "127.0.0.1", none, [], 5⟩ (by decide)

/-! ## Round trip: submit_response then get_voter_logs (C4) -/

lemma submit_response_snd_responses (cid : Nat) (demo : List (String × String))
    (answers : List (Nat × Selection)) (ip ua : Option String)
    (loc : Option (List (String × String))) (db : DB) :
    (submit_response cid demo answers ip ua loc db).2.responses =
      db.responses ++
        [⟨db.next_response_id, cid, some (.enc demo), ip, ua,
          (match loc with
           | none => none
           | some m => if m.isEmpty then none else some (.enc m)),
          db.now⟩] := rfl

/-- The decoded location read back for the value passed to `submit_response`:
`None` and the empty map are falsy in Python, stored as NULL and read back as
`{}`; a non-empty map round-trips. In all cases this is `loc.getD []`. -/
lemma decodeMap_locStored (loc : Option (List (String × String))) :
    decodeMap
      (match loc with
       | none => none
       | some m => if m.isEmpty then none else some (.enc m)) = loc.getD [] := by
  cases loc with
  | none => rfl
  | some m =>
    cases m with
    | nil => rfl
    | cons p l => rfl

/-- C4: after `submit_response`, the log entry that `get_voter_logs` returns
for the new response (identified by the returned id, which is fresh by the
hypothesis) carries exactly the demographic map that was passed in, and the
location map that was passed in with `None` (and the falsy empty map) reading
back as the empty map. -/
theorem submit_then_logs_roundtrip (cid : Nat) (demo : List (String × String))
    (answers : List (Nat × Selection)) (ip ua : Option String)
    (loc : Option (List (String × String))) (db : DB)
    (hfresh : ∀ r ∈ db.responses, r.id ≠ db.next_response_id) :
    (∃ log ∈ get_voter_logs cid (submit_response cid demo answers ip ua loc db).2,
        log.id = (submit_response cid demo answers ip ua loc db).1) ∧
    (∀ log ∈ get_voter_logs cid (submit_response cid demo answers ip ua loc db).2,
        log.id = (submit_response cid demo answers ip ua loc db).1 →
          log.demographic_data = demo ∧ log.location_data = loc.getD []) := by
  set row : RowResponse :=
    ⟨db.next_response_id, cid, some (.enc demo), ip, ua,
     (match loc with
      | none => none
      | some m => if m.isEmpty then none else some (.enc m)),
     db.now⟩ with hrow
  have hmemrow : row ∈ (submit_response cid demo answers ip ua loc db).2.responses := by
    rw [submit_response_snd_responses]
    simp [hrow]
  constructor
  · exact ⟨rowToLog row, mem_get_voter_logs cid _ row hmemrow rfl, rfl⟩
  · intro log hlog hid
    obtain ⟨r, hr, hc, hrl⟩ :=
      get_voter_logs_mem cid (submit_response cid demo answers ip ua loc db).2 log hlog
    rw [submit_response_snd_responses] at hr
    rcases List.mem_append.mp hr with hold | hnew
    · exfalso
      apply hfresh r hold
      have : log.id = r.id := by rw [← hrl]; rfl
      rw [← this, hid]
      rfl
    · have hreq : r = row := by
        rw [hrow]
        exact List.mem_singleton.mp hnew
      subst hreq
      rw [← hrl]
      refine ⟨rfl, ?_⟩
      show decodeMap row.location_data = loc.getD []
      exact decodeMap_locStored loc

/-- Witness for C4: submitting a response with a demographic map and a `None`
location to campaign 1 of `wDB` (whose next response id 2 is fresh), the logs
carry the submitted map back and the empty location map. -/
theorem submit_then_logs_roundtrip_witness :
    (∀ r ∈ wDB.responses, r.id ≠ wDB.next_response_id) ∧
    ((∃ log ∈ get_voter_logs 1
          (submit_response 1 [("เพศ", "หญิง")] [(1, .scalar 1)] none none none wDB).2,
        log.id = (submit_response 1 [("เพศ", "หญิง")] [(1, .scalar 1)] none none none wDB).1) ∧
     (∀ log ∈ get_voter_logs 1
          (submit_response 1 [("เพศ", "หญิง")] [(1, .scalar 1)] none none none wDB).2,
        log.id = (submit_response 1 [("เพศ", "หญิง")] [(1, .scalar 1)] none none none wDB).1 →
          log.demographic_data = [("เพศ", "หญิง")] ∧
          log.location_data = (none : Option (List (String × String))).getD [])) :=
  ⟨by decide,
   submit_then_logs_roundtrip 1 [("เพศ", "หญิง")] [(1, .scalar 1)] none none none wDB
     (by decide)⟩

/-! ## get_vote_statistics (database.py lines 548-590)

The per-question SQL query
`SELECT o.*, COUNT(rd.id) as vote_count FROM options o LEFT JOIN
response_details rd ON o.id = rd.option_id WHERE o.question_id = ?
GROUP BY o.id ORDER BY o.display_order`
is embedded as: filter the options of the question, sort them by
display_order, build the left join (an option with no matching detail
contributes one null-padded row), and emit one group per option row —
`options.id` is the table's primary key, so grouping by `o.id` is grouping
by option row — with `COUNT(rd.id)` counting only non-null partners. -/

/-- `ORDER BY display_order` on question rows. -/
def sortQuestions (l : List RowQuestion) : List RowQuestion :=
  l.insertionSort (fun a b => a.display_order ≤ b.display_order)

/-- `ORDER BY display_order` on option rows. -/
def sortOptions (l : List RowOption) : List RowOption :=
  l.insertionSort (fun a b => a.display_order ≤ b.display_order)

/-- `options o LEFT JOIN response_details rd ON o.id = rd.option_id`. -/
def leftJoinDetails (opts : List RowOption) (rds : List RowResponseDetail) :
    List (RowOption × Option RowResponseDetail) :=
  opts.flatMap (fun o =>
    let m := rds.filter (fun rd => rd.option_id == o.id)
    if m.isEmpty then [(o, none)] else m.map (fun rd => (o, some rd)))

/-- `COUNT(rd.id)` over the group of join rows belonging to option id `oid`:
only rows with a non-null `response_details` partner are counted. -/
def groupCount (joined : List (RowOption × Option RowResponseDetail)) (oid : Nat) : Nat :=
  (joined.filter (fun p => p.1.id == oid && p.2.isSome)).length

/-- One element of the `options` list in a `get_vote_statistics` question
entry: the option columns plus `vote_count` and `percentage`. -/
structure OptionStat where
  id : Nat
  question_id : Nat
  option_text : String
  image_url : Option String
  bg_color : String
  display_order : Nat
  vote_count : Nat
  percentage : ℚ
deriving DecidableEq, Repr

/-- One element of the `questions` list returned by `get_vote_statistics`. -/
structure QuestionStat where
  id : Nat
  text : String
  qtype : String
  options : List OptionStat
  total_votes : Nat
deriving DecidableEq, Repr

/-- The options of a question in display order (the SQL `WHERE
o.question_id = ? ... ORDER BY o.display_order`). -/
def questionOpts (db : DB) (q : RowQuestion) : List RowOption :=
  sortOptions (db.options.filter (fun o => o.question_id == q.id))

/-- Each option of the question paired with its `vote_count` from the
grouped left join. -/
def questionCounts (db : DB) (q : RowQuestion) : List (RowOption × Nat) :=
  (questionOpts db q).map (fun o =>
    (o, groupCount (leftJoinDetails (questionOpts db q) db.response_details) o.id))

/-- `total_votes = sum(opt['vote_count'] for opt in options)`. -/
def questionTotal (db : DB) (q : RowQuestion) : Nat :=
  ((questionCounts db q).map (fun p => p.2)).sum

/-- `opt['percentage'] = (opt['vote_count'] / total_votes * 100) if
total_votes > 0 else 0`, evaluated in exact rational arithmetic. -/
def mkOptionStat (total : Nat) (p : RowOption × Nat) : OptionStat :=
  ⟨p.1.id, p.1.question_id, p.1.option_text, p.1.image_url, p.1.bg_color,
   p.1.display_order, p.2,
   if 0 < total then (p.2 : ℚ) / (total : ℚ) * 100 else 0⟩

/-- The `get_vote_statistics` entry of one question. -/
def questionStats (db : DB) (q : RowQuestion) : QuestionStat :=
  ⟨q.id, q.question_text, q.question_type,
   (questionCounts db q).map (mkOptionStat (questionTotal db q)),
   questionTotal db q⟩

/-- `get_vote_statistics`: the campaign's questions in display order, each
with its per-option counts and percentages. -/
def get_vote_statistics (cid : Nat) (db : DB) : List QuestionStat :=
  (sortQuestions (db.questions.filter (fun q => q.campaign_id == cid))).map
    (questionStats db)

/-! ### The grouped left join counts exactly the matching detail rows -/

lemma leftJoin_cons (o : RowOption) (opts : List RowOption)
    (rds : List RowResponseDetail) :
    leftJoinDetails (o :: opts) rds =
      (let m := rds.filter (fun rd => rd.option_id == o.id)
       if m.isEmpty then [(o, none)] else m.map (fun rd => (o, some rd))) ++
      leftJoinDetails opts rds := by
  simp [leftJoinDetails]

lemma groupCount_append (l₁ l₂ : List (RowOption × Option RowResponseDetail))
    (oid : Nat) :
    groupCount (l₁ ++ l₂) oid = groupCount l₁ oid + groupCount l₂ oid := by
  simp [groupCount, List.filter_append]

lemma groupCount_block (o : RowOption) (rds : List RowResponseDetail) (oid : Nat) :
    groupCount
      (let m := rds.filter (fun rd => rd.option_id == o.id)
       if m.isEmpty then [(o, none)] else m.map (fun rd => (o, some rd))) oid =
      if o.id = oid then (rds.filter (fun rd => rd.option_id == oid)).length else 0 := by
  show groupCount
      (if (rds.filter (fun rd => rd.option_id == o.id)).isEmpty
       then [(o, none)]
       else (rds.filter (fun rd => rd.option_id == o.id)).map (fun rd => (o, some rd)))
      oid = _
  by_cases hm : (rds.filter (fun rd => rd.option_id == o.id)).isEmpty
  · rw [if_pos hm]
    have hnil : rds.filter (fun rd => rd.option_id == o.id) = [] :=
      List.isEmpty_iff.mp hm
    by_cases h : o.id = oid
    · subst h
      rw [if_pos rfl, hnil]
      simp [groupCount]
    · rw [if_neg h]
      simp [groupCount, h]
  · rw [if_neg hm]
    by_cases h : o.id = oid
    · subst h
      rw [if_pos rfl]
      simp only [groupCount]
      rw [List.filter_map]
      simp [Function.comp]
    · rw [if_neg h]
      simp only [groupCount]
      rw [List.filter_map]
      simp [h]

lemma groupCount_not_mem (opts : List RowOption) (rds : List RowResponseDetail)
    (oid : Nat) (h : ∀ o ∈ opts, o.id ≠ oid) :
    groupCount (leftJoinDetails opts rds) oid = 0 := by
  induction opts with
  | nil => rfl
  | cons o rest ih =>
    rw [leftJoin_cons, groupCount_append, groupCount_block,
        if_neg (h o (List.mem_cons_self o rest)),
        ih (fun o' ho' => h o' (List.mem_cons_of_mem o ho'))]

lemma groupCount_leftJoin (opts : List RowOption) (rds : List RowResponseDetail)
    (o : RowOption) (hmem : o ∈ opts) (hnodup : (opts.map RowOption.id).Nodup) :
    groupCount (leftJoinDetails opts rds) o.id =
      (rds.filter (fun rd => rd.option_id == o.id)).length := by
  induction opts with
  | nil => cases hmem
  | cons a rest ih =>
    simp only [List.map_cons, List.nodup_cons] at hnodup
    rw [leftJoin_cons, groupCount_append, groupCount_block]
    rcases List.mem_cons.mp hmem with heq | hrest
    · have haid : a.id = o.id := by rw [heq]
      have hrest0 : ∀ o' ∈ rest, o'.id ≠ o.id := by
        intro o' ho' he
        apply hnodup.1
        rw [haid, ← he]
        exact List.mem_map_of_mem RowOption.id ho'
      rw [if_pos haid, groupCount_not_mem rest rds o.id hrest0, Nat.add_zero]
    · have hne : a.id ≠ o.id := by
        intro he
        apply hnodup.1
        rw [he]
        exact List.mem_map_of_mem RowOption.id hrest
      rw [if_neg hne, Nat.zero_add]
      exact ih hrest hnodup.2

lemma questionOpts_nodup (db : DB) (q : RowQuestion)
    (hids : (db.options.map RowOption.id).Nodup) :
    ((questionOpts db q).map RowOption.id).Nodup := by
  have hsub : (db.options.filter (fun o => o.question_id == q.id)).Sublist db.options :=
    List.filter_sublist _
  have hnf : ((db.options.filter (fun o => o.question_id == q.id)).map RowOption.id).Nodup :=
    (hsub.map RowOption.id).nodup hids
  have hperm : (questionOpts db q).Perm
      (db.options.filter (fun o => o.question_id == q.id)) :=
    List.perm_insertionSort _ _
  exact ((hperm.map RowOption.id).nodup_iff).mpr hnf

lemma questionOpts_sorted (db : DB) (q : RowQuestion) :
    (questionOpts db q).Pairwise (fun a b => a.display_order ≤ b.display_order) := by
  haveI : IsTotal RowOption (fun a b => a.display_order ≤ b.display_order) :=
    ⟨fun a b => Nat.le_total a.display_order b.display_order⟩
  haveI : IsTrans RowOption (fun a b => a.display_order ≤ b.display_order) :=
    ⟨fun _ _ _ hxy hyz => Nat.le_trans hxy hyz⟩
  exact List.sorted_insertionSort _ _

lemma questionStats_options_eq (db : DB) (q : RowQuestion) :
    (questionStats db q).options =
      (questionOpts db q).map (fun o =>
        mkOptionStat (questionTotal db q)
          (o, groupCount (leftJoinDetails (questionOpts db q) db.response_details) o.id)) := by
  simp only [questionStats, questionCounts, List.map_map]
  rfl

/-- C2: under the primary-key fact that option ids are unique,
`get_vote_statistics` lists the campaign's questions in display order; each
entry lists every option of the question in display order (zero-vote options
included); each option's `vote_count` is exactly the number of
`response_details` rows whose `option_id` matches it — in particular 0 when
no row matches — and its `percentage` is
`vote_count / total_votes * 100` when the question's `total_votes` is
positive and exactly 0 otherwise. -/
theorem get_vote_statistics_spec (cid : Nat) (db : DB)
    (hids : (db.options.map RowOption.id).Nodup) :
    (∃ qsorted : List RowQuestion,
        qsorted.Perm (db.questions.filter (fun q => q.campaign_id == cid)) ∧
        qsorted.Pairwise (fun a b => a.display_order ≤ b.display_order) ∧
        get_vote_statistics cid db = qsorted.map (questionStats db)) ∧
    (∀ qs ∈ get_vote_statistics cid db,
        qs.options.Pairwise (fun a b => a.display_order ≤ b.display_order) ∧
        (qs.options.map OptionStat.id).Perm
          ((db.options.filter (fun o => o.question_id == qs.id)).map RowOption.id) ∧
        qs.total_votes = (qs.options.map OptionStat.vote_count).sum ∧
        (∀ os ∈ qs.options,
          os.vote_count =
            (db.response_details.filter (fun rd => rd.option_id == os.id)).length ∧
          ((¬ ∃ rd ∈ db.response_details, rd.option_id = os.id) → os.vote_count = 0) ∧
          os.percentage =
            (if 0 < qs.total_votes
             then (os.vote_count : ℚ) / (qs.total_votes : ℚ) * 100 else 0))) := by
  constructor
  · refine ⟨sortQuestions (db.questions.filter (fun q => q.campaign_id == cid)),
      List.perm_insertionSort _ _, ?_, rfl⟩
    haveI : IsTotal RowQuestion (fun a b => a.display_order ≤ b.display_order) :=
      ⟨fun a b => Nat.le_total a.display_order b.display_order⟩
    haveI : IsTrans RowQuestion (fun a b => a.display_order ≤ b.display_order) :=
      ⟨fun _ _ _ hxy hyz => Nat.le_trans hxy hyz⟩
    exact List.sorted_insertionSort _ _
  · intro qs hqs
    obtain ⟨q, hq, rfl⟩ := List.mem_map.mp hqs
    refine ⟨?_, ?_, ?_, ?_⟩
    · rw [questionStats_options_eq]
      exact List.pairwise_map.mpr ((questionOpts_sorted db q).imp (fun h => h))
    · rw [questionStats_options_eq, List.map_map]
      have hfe : (OptionStat.id ∘ fun o =>
          mkOptionStat (questionTotal db q)
            (o, groupCount (leftJoinDetails (questionOpts db q) db.response_details) o.id)) =
          RowOption.id := rfl
      rw [hfe]
      exact (List.perm_insertionSort _ _).map RowOption.id
    · have hvc : (questionStats db q).options.map OptionStat.vote_count =
          (questionCounts db q).map (fun p => p.2) := by
        simp only [questionStats, List.map_map]
        rfl
      rw [hvc]
      rfl
    · intro os hos
      rw [questionStats_options_eq] at hos
      obtain ⟨o, ho, rfl⟩ := List.mem_map.mp hos
      have hcnt := groupCount_leftJoin (questionOpts db q) db.response_details o ho
        (questionOpts_nodup db q hids)
      refine ⟨hcnt, ?_, rfl⟩
      intro hno
      show groupCount (leftJoinDetails (questionOpts db q) db.response_details) o.id = 0
      rw [hcnt]
      refine List.length_eq_zero.mpr (List.eq_nil_iff_forall_not_mem.mpr ?_)
      intro rd hrd
      have hm := List.mem_filter.mp hrd
      exact hno ⟨rd, hm.1, by simpa using hm.2⟩

/-- Witness for C2 at the concrete store `wDB`, campaign 1. -/
theorem get_vote_statistics_spec_witness :
    (wDB.options.map RowOption.id).Nodup ∧
    (∃ qsorted : List RowQuestion,
        qsorted.Perm (wDB.questions.filter (fun q => q.campaign_id == 1)) ∧
        qsorted.Pairwise (fun a b => a.display_order ≤ b.display_order) ∧
        get_vote_statistics 1 wDB = qsorted.map (questionStats wDB)) :=
  ⟨by decide, (get_vote_statistics_spec 1 wDB (by decide)).1⟩

lemma sum_map_rat_div (l : List ℕ) (T : ℚ) :
    (l.map (fun n : ℕ => (n : ℚ) / T * 100)).sum = (l.sum : ℚ) / T * 100 := by
  induction l with
  | nil => simp
  | cons a l ih =>
    simp only [List.map_cons, List.sum_cons, ih]
    push_cast
    ring

/-- C6: in every question entry of `get_vote_statistics`, when `total_votes`
is positive the (exact rational) option percentages sum to exactly 100, and
when `total_votes` is 0 every option's percentage is exactly 0. -/
theorem vote_percentages_sum (cid : Nat) (db : DB) :
    ∀ qs ∈ get_vote_statistics cid db,
      (0 < qs.total_votes → (qs.options.map OptionStat.percentage).sum = 100) ∧
      (qs.total_votes = 0 → ∀ os ∈ qs.options, os.percentage = 0) := by
  intro qs hqs
  obtain ⟨q, hq, rfl⟩ := List.mem_map.mp hqs
  have hpct : (questionStats db q).options.map OptionStat.percentage =
      ((questionCounts db q).map (fun p => p.2)).map
        (fun n : ℕ => if 0 < questionTotal db q
                      then (n : ℚ) / (questionTotal db q : ℚ) * 100 else 0) := by
    simp only [questionStats, List.map_map]
    rfl
  constructor
  · intro hpos
    have hTpos : 0 < questionTotal db q := hpos
    rw [hpct]
    have hif : (fun n : ℕ => if 0 < questionTotal db q
          then (n : ℚ) / (questionTotal db q : ℚ) * 100 else 0) =
        fun n : ℕ => (n : ℚ) / (questionTotal db q : ℚ) * 100 := by
      funext n
      rw [if_pos hTpos]
    rw [hif, sum_map_rat_div]
    have hsum : ((questionCounts db q).map (fun p => p.2)).sum = questionTotal db q := rfl
    rw [hsum]
    have hne : ((questionTotal db q : ℕ) : ℚ) ≠ (0 : ℚ) := by
      exact_mod_cast Nat.pos_iff_ne_zero.mp hTpos
    rw [div_self hne, one_mul]
  · intro h0 os hos
    have h0' : questionTotal db q = 0 := h0
    simp only [questionStats] at hos
    obtain ⟨p, hp, rfl⟩ := List.mem_map.mp hos
    show (if 0 < questionTotal db q
          then (p.2 : ℚ) / (questionTotal db q : ℚ) * 100 else 0) = 0
    rw [if_neg (by rw [h0']; exact Nat.lt_irrefl 0)]

/-- Witness for C6: in `wDB`, campaign 1's question has `total_votes = 1 > 0`
and its percentages (0 and 100) sum to 100. -/
theorem vote_percentages_sum_witness :
    ((questionStats wDB ⟨1, 1, "Q1", "single", 1, 1⟩) ∈ get_vote_statistics 1 wDB) ∧
    0 < (questionStats wDB ⟨1, 1, "Q1", "single", 1, 1⟩).total_votes ∧
    ((questionStats wDB ⟨1, 1, "Q1", "single", 1, 1⟩).options.map
        OptionStat.percentage).sum = 100 :=
  have hmem : (questionStats wDB ⟨1, 1, "Q1", "single", 1, 1⟩) ∈
      get_vote_statistics 1 wDB :=
    List.mem_map_of_mem (questionStats wDB) (by decide)
  ⟨hmem, by decide,
   (vote_percentages_sum 1 wDB (questionStats wDB ⟨1, 1, "Q1", "single", 1, 1⟩) hmem).1
     (by decide)⟩

/-! ## get_demographic_breakdown (database.py lines 592-618)

The Python loop scans the campaign's responses, decodes each
`demographic_data` leniently (absent/undecodable text reads as `{}`), takes
`data.get(field, 'ไม่ระบุ')` and counts occurrences in a dict, incrementing
a running total per row. -/

/-- `data.get(field, 'ไม่ระบุ')` after the lenient decode of one response's
demographic text: the value at `field`, or the literal placeholder when the
field is absent (including when the decode fell back to `{}`). -/
def bucketValue (field : String) (stored : Option StoredText) : String :=
  ((decodeMap stored).lookup field).getD "ไม่ระบุ"

/-- `counts[value] = counts.get(value, 0) + 1` on a Python dict: bump the
existing key in place, or append the new key with count 1. -/
def bump : List (String × Nat) → String → List (String × Nat)
  | [], v => [(v, 1)]
  | (k, n) :: rest, v =>
      if k = v then (k, n + 1) :: rest else (k, n) :: bump rest v

/-- One iteration of the scan: bump the bucket of this row's value and
increment the total. -/
def breakdownStep (field : String) (acc : List (String × Nat) × Nat)
    (r : RowResponse) : List (String × Nat) × Nat :=
  (bump acc.1 (bucketValue field r.demographic_data), acc.2 + 1)

/-- The value `get_demographic_breakdown` returns: the grand total and the
per-value counts. -/
structure Breakdown where
  total : Nat
  data : List (String × Nat)
deriving DecidableEq, Repr

/-- `get_demographic_breakdown`: linear scan over
`SELECT demographic_data FROM responses WHERE campaign_id = ?`. -/
def get_demographic_breakdown (cid : Nat) (field : String) (db : DB) : Breakdown :=
  let res := (db.responses.filter (fun r => r.campaign_id == cid)).foldl
    (breakdownStep field) ([], 0)
  ⟨res.2, res.1⟩

/-- Sum of the per-value counts. -/
def sumCounts : List (String × Nat) → Nat
  | [] => 0
  | p :: rest => p.2 + sumCounts rest

/-- The count recorded for key `k` (first occurrence; a Python dict holds
each key once). -/
def countOf : List (String × Nat) → String → Nat
  | [], _ => 0
  | (k, n) :: rest, v => if k = v then n else countOf rest v

lemma bump_sumCounts (acc : List (String × Nat)) (v : String) :
    sumCounts (bump acc v) = sumCounts acc + 1 := by
  induction acc with
  | nil => rfl
  | cons p rest ih =>
    obtain ⟨k, n⟩ := p
    by_cases h : k = v
    · simp [bump, h, sumCounts]
      omega
    · simp [bump, h, sumCounts, ih]
      omega

lemma bump_countOf (acc : List (String × Nat)) (v k : String) :
    countOf (bump acc v) k = countOf acc k + (if v = k then 1 else 0) := by
  induction acc with
  | nil => simp [bump, countOf]
  | cons p rest ih =>
    obtain ⟨k', n⟩ := p
    by_cases h1 : k' = v
    · subst h1
      by_cases h2 : k' = k
      · subst h2
        simp [bump, countOf]
      · simp [bump, countOf, h2]
    · by_cases h2 : k' = k
      · subst h2
        have h3 : ¬ v = k' := fun he => h1 he.symm
        simp [bump, countOf, h1, h3]
      · simp [bump, countOf, h1, h2, ih]

lemma breakdown_foldl_total (field : String) (rows : List RowResponse)
    (acc : List (String × Nat)) (t : Nat) :
    (rows.foldl (breakdownStep field) (acc, t)).2 = t + rows.length := by
  induction rows generalizing acc t with
  | nil => simp
  | cons r rest ih =>
    simp only [List.foldl_cons, breakdownStep]
    rw [ih]
    simp
    omega

lemma breakdown_foldl_sum (field : String) (rows : List RowResponse)
    (acc : List (String × Nat)) (t : Nat) :
    sumCounts (rows.foldl (breakdownStep field) (acc, t)).1 =
      sumCounts acc + rows.length := by
  induction rows generalizing acc t with
  | nil => simp
  | cons r rest ih =>
    simp only [List.foldl_cons, breakdownStep]
    rw [ih, bump_sumCounts]
    simp
    omega

lemma breakdown_foldl_count (field : String) (rows : List RowResponse)
    (acc : List (String × Nat)) (t : Nat) (k : String) :
    countOf (rows.foldl (breakdownStep field) (acc, t)).1 k =
      countOf acc k +
        (rows.filter (fun r => bucketValue field r.demographic_data == k)).length := by
  induction rows generalizing acc t with
  | nil => simp
  | cons r rest ih =>
    simp only [List.foldl_cons, breakdownStep]
    rw [ih, bump_countOf]
    by_cases h : bucketValue field r.demographic_data = k
    · simp [List.filter_cons, h]
      omega
    · simp [List.filter_cons, h]

/-- C3: the per-value counts of `get_demographic_breakdown` sum exactly to
the returned total, the total equals the number of Response rows of the
campaign, each value's count is exactly the number of campaign responses
bucketed to it, and a response whose decoded demographic map lacks the field
(including one whose stored text is absent or fails to decode) is bucketed
under the literal placeholder `"ไม่ระบุ"` ("not specified"). -/
theorem demographic_breakdown_spec (cid : Nat) (field : String) (db : DB) :
    sumCounts (get_demographic_breakdown cid field db).data =
      (get_demographic_breakdown cid field db).total ∧
    (get_demographic_breakdown cid field db).total =
      (db.responses.filter (fun r => r.campaign_id == cid)).length ∧
    (∀ k : String, countOf (get_demographic_breakdown cid field db).data k =
      ((db.responses.filter (fun r => r.campaign_id == cid)).filter
        (fun r => bucketValue field r.demographic_data == k)).length) ∧
    (∀ st : Option StoredText, (decodeMap st).lookup field = none →
      bucketValue field st = "ไม่ระบุ") := by
  refine ⟨?_, ?_, ?_, ?_⟩
  · show sumCounts ((db.responses.filter (fun r => r.campaign_id == cid)).foldl
        (breakdownStep field) ([], 0)).1 =
      ((db.responses.filter (fun r => r.campaign_id == cid)).foldl
        (breakdownStep field) ([], 0)).2
    rw [breakdown_foldl_sum, breakdown_foldl_total]
    rfl
  · show ((db.responses.filter (fun r => r.campaign_id == cid)).foldl
        (breakdownStep field) ([], 0)).2 = _
    rw [breakdown_foldl_total]
    exact Nat.zero_add _
  · intro k
    show countOf ((db.responses.filter (fun r => r.campaign_id == cid)).foldl
        (breakdownStep field) ([], 0)).1 k = _
    rw [breakdown_foldl_count]
    simp [countOf]
  · intro st h
    unfold bucketValue
    rw [h]
    rfl

/-- Witness for C3 at the concrete store `wDB`: the counts of the field
`"เพศ"` sum to the total, and a response whose stored text fails to decode
falls under `"ไม่ระบุ"`. -/
theorem demographic_breakdown_spec_witness :
    (sumCounts (get_demographic_breakdown 1 "เพศ" wDB).data =
      (get_demographic_breakdown 1 "เพศ" wDB).total) ∧
    ((decodeMap (some (.bad "oops"))).lookup "เพศ" = none ∧
      bucketValue "เพศ" (some (.bad "oops")) = "ไม่ระบุ") :=
  ⟨(demographic_breakdown_spec 1 "เพศ" wDB).1,
   by decide,
   (demographic_breakdown_spec 1 "เพศ" wDB).2.2.2 (some (.bad "oops")) (by decide)⟩

/-! ## update_question (database.py lines 422-445) -/

/-- One element of the `options` list passed to `update_question`:
`opt['text']`, `opt.get('image_url')`, `opt.get('bg_color', '#ffffff')`. -/
structure OptIn where
  text : String
  image_url : Option String
  bg_color : Option String
deriving DecidableEq, Repr

/-- The option rows inserted by `for i, opt in enumerate(options)`:
sequential AUTOINCREMENT ids starting at `nid`, `display_order = i`. -/
def insertNewOptions (qid : Nat) : List OptIn → Nat → Nat → List RowOption
  | [], _, _ => []
  | opt :: rest, nid, i =>
      ⟨nid, qid, opt.text, opt.image_url, opt.bg_color.getD "#ffffff", i⟩ ::
        insertNewOptions qid rest (nid + 1) (i + 1)

/-- `update_question`: UPDATE the question row in place, DELETE all Option
rows of the question, then INSERT the new option list in order. -/
def update_question (qid : Nat) (question_text question_type : String)
    (max_selections : Nat) (options : List OptIn) (db : DB) : DB :=
  let db1 := { db with questions := db.questions.map (fun (q : RowQuestion) =>
    if q.id == qid then
      { q with question_text := question_text, question_type := question_type,
               max_selections := max_selections }
    else q) }
  let db2 := { db1 with
    options := db1.options.filter (fun o => !(o.question_id == qid)) }
  { db2 with
    options := db2.options ++ insertNewOptions qid options db.next_option_id 0
    next_option_id := db.next_option_id + options.length }

lemma insertNewOptions_qid (qid : Nat) (opts : List OptIn) (nid i : Nat) :
    ∀ o ∈ insertNewOptions qid opts nid i, o.question_id = qid := by
  induction opts generalizing nid i with
  | nil => intro o ho; cases ho
  | cons opt rest ih =>
    intro o ho
    rcases List.mem_cons.mp ho with rfl | hrest
    · rfl
    · exact ih (nid + 1) (i + 1) o hrest

lemma insertNewOptions_id_ge (qid : Nat) (opts : List OptIn) (nid i : Nat) :
    ∀ o ∈ insertNewOptions qid opts nid i, nid ≤ o.id := by
  induction opts generalizing nid i with
  | nil => intro o ho; cases ho
  | cons opt rest ih =>
    intro o ho
    rcases List.mem_cons.mp ho with rfl | hrest
    · exact Nat.le_refl _
    · exact Nat.le_trans (Nat.le_succ nid) (ih (nid + 1) (i + 1) o hrest)

lemma insertNewOptions_map_enumFrom (qid : Nat) (opts : List OptIn) (nid i : Nat) :
    (insertNewOptions qid opts nid i).map
        (fun o => (o.question_id, o.option_text, o.image_url, o.bg_color,
                   o.display_order)) =
      (opts.enumFrom i).map (fun p =>
        (qid, p.2.text, p.2.image_url, p.2.bg_color.getD "#ffffff", p.1)) := by
  induction opts generalizing nid i with
  | nil => rfl
  | cons opt rest ih =>
    simp only [insertNewOptions, List.map_cons, List.enumFrom_cons, ih]

lemma update_question_options_eq (qid : Nat) (qtext qtype : String)
    (maxSel : Nat) (options : List OptIn) (db : DB) :
    (update_question qid qtext qtype maxSel options db).options =
      db.options.filter (fun o => !(o.question_id == qid)) ++
        insertNewOptions qid options db.next_option_id 0 := rfl

/-- C8: assuming every stored option id is below the AUTOINCREMENT cursor,
after `update_question` the Option rows of the question are exactly the
freshly inserted list; the inserted rows carry the given texts, images and
colors in the given order with `display_order` equal to the 0-based list
position; and none of the question's post-update option rows reuses any
pre-update option id. -/
theorem update_question_replaces (qid : Nat) (qtext qtype : String)
    (maxSel : Nat) (options : List OptIn) (db : DB)
    (hfresh : ∀ o ∈ db.options, o.id < db.next_option_id) :
    ((update_question qid qtext qtype maxSel options db).options.filter
        (fun o => o.question_id == qid)) =
      insertNewOptions qid options db.next_option_id 0 ∧
    (insertNewOptions qid options db.next_option_id 0).map
        (fun o => (o.question_id, o.option_text, o.image_url, o.bg_color,
                   o.display_order)) =
      options.enum.map (fun p =>
        (qid, p.2.text, p.2.image_url, p.2.bg_color.getD "#ffffff", p.1)) ∧
    (∀ o ∈ (update_question qid qtext qtype maxSel options db).options,
        o.question_id = qid → ∀ oOld ∈ db.options, o.id ≠ oOld.id) := by
  have hfilter : ((update_question qid qtext qtype maxSel options db).options.filter
      (fun o => o.question_id == qid)) =
      insertNewOptions qid options db.next_option_id 0 := by
    rw [update_question_options_eq, List.filter_append]
    have h1 : (db.options.filter (fun o => !(o.question_id == qid))).filter
        (fun o => o.question_id == qid) = [] := by
      rw [List.filter_filter]
      have : ∀ o : RowOption,
          ((o.question_id == qid) && !(o.question_id == qid)) = false := by
        intro o
        cases h : (o.question_id == qid) <;> simp [h]
      simp [this]
    have h2 : (insertNewOptions qid options db.next_option_id 0).filter
        (fun o => o.question_id == qid) =
        insertNewOptions qid options db.next_option_id 0 := by
      rw [List.filter_eq_self]
      intro o ho
      simpa using insertNewOptions_qid qid options db.next_option_id 0 o ho
    rw [h1, h2, List.nil_append]
  refine ⟨hfilter, insertNewOptions_map_enumFrom qid options db.next_option_id 0, ?_⟩
  intro o ho hq oOld hOld
  have hmem : o ∈ insertNewOptions qid options db.next_option_id 0 := by
    rw [← hfilter]
    exact List.mem_filter.mpr ⟨ho, by simpa using hq⟩
  have hge := insertNewOptions_id_ge qid options db.next_option_id 0 o hmem
  have hlt := hfresh oOld hOld
  omega

/-- Witness for C8 at the concrete store `wDB`: replacing question 1's two
options with a single new option. -/
theorem update_question_replaces_witness :
    (∀ o ∈ wDB.options, o.id < wDB.next_option_id) ∧
    ((update_question 1 "Q1b" "single" 1 [⟨"C", none, none⟩] wDB).options.filter
        (fun o => o.question_id == 1)) =
      insertNewOptions 1 [⟨"C", none, none⟩] wDB.next_option_id 0 :=
  ⟨by decide,
   (update_question_replaces 1 "Q1b" "single" 1 [⟨"C", none, none⟩] wDB (by decide)).1⟩

/-! ## get_campaign_demographics (database.py lines 792-816) and
render_demographic_form (voter_ui.py lines 111-123)

The SQL is
`SELECT da.*, cd.is_required, cd.display_order as campaign_order
 FROM demographic_attributes da
 JOIN campaign_demographics cd ON da.id = cd.attribute_id
 WHERE cd.campaign_id = ? AND da.is_active = 1
 ORDER BY cd.display_order`
— an inner join that also filters on the attribute being globally ACTIVE.
The per-attribute options sub-reads are omitted here: they do not affect
which attributes are listed.  `render_demographic_form` falls back to all
active attributes when this list comes back empty. -/

/-- One row of the `get_campaign_demographics` result: the `da.*` columns
plus `cd.is_required` and the campaign-local display order. -/
structure CampaignDemoRow where
  attr : RowDemographicAttribute
  is_required : Bool
  campaign_order : Nat
deriving DecidableEq, Repr

/-- `get_campaign_demographics`: the inner join filtered on
`cd.campaign_id = ?` and `da.is_active = 1`, ordered by `cd.display_order`. -/
def get_campaign_demographics (cid : Nat) (db : DB) : List CampaignDemoRow :=
  ((db.demographic_attributes.flatMap (fun da =>
      db.campaign_demographics.filterMap (fun cd =>
        if da.id == cd.attribute_id && cd.campaign_id == cid && da.is_active
        then some (⟨da, cd.is_required, cd.display_order⟩ : CampaignDemoRow)
        else none))).insertionSort
    (fun a b => a.campaign_order ≤ b.campaign_order))

/-- `get_demographic_attributes(active_only=True)`: every globally active
attribute, in display order. -/
def get_demographic_attributes_active (db : DB) : List RowDemographicAttribute :=
  ((db.demographic_attributes.filter (fun da => da.is_active)).insertionSort
    (fun a b => a.display_order ≤ b.display_order))

/-- The attribute rows `render_demographic_form` iterates over: the
campaign's `get_campaign_demographics` result, or — if that is empty — every
globally active attribute. -/
def render_demographic_attrs (cid : Nat) (db : DB) : List RowDemographicAttribute :=
  let ds := get_campaign_demographics cid db
  if ds.isEmpty then get_demographic_attributes_active db
  else ds.map (fun row => row.attr)

lemma mem_get_campaign_demographics (cid : Nat) (db : DB) (row : CampaignDemoRow) :
    row ∈ get_campaign_demographics cid db ↔
      row.attr ∈ db.demographic_attributes ∧ row.attr.is_active = true ∧
      ∃ cd ∈ db.campaign_demographics,
        cd.campaign_id = cid ∧ cd.attribute_id = row.attr.id ∧
        row.is_required = cd.is_required ∧ row.campaign_order = cd.display_order := by
  unfold get_campaign_demographics
  rw [(List.perm_insertionSort _ _).mem_iff]
  constructor
  · intro h
    obtain ⟨da, hda, hrow⟩ := List.mem_flatMap.mp h
    obtain ⟨cd, hcd, hg⟩ := List.mem_filterMap.mp hrow
    by_cases hcond : (da.id == cd.attribute_id && cd.campaign_id == cid && da.is_active) = true
    · rw [if_pos hcond] at hg
      have hre : (⟨da, cd.is_required, cd.display_order⟩ : CampaignDemoRow) = row :=
        Option.some.inj hg
      simp only [Bool.and_eq_true, beq_iff_eq] at hcond
      rw [← hre]
      exact ⟨hda, hcond.2, cd, hcd, hcond.1.2, hcond.1.1.symm, rfl, rfl⟩
    · rw [if_neg hcond] at hg
      cases hg
  · rintro ⟨hda, hact, cd, hcd, hcc, hca, hreq, hord⟩
    refine List.mem_flatMap.mpr ⟨row.attr, hda, ?_⟩
    refine List.mem_filterMap.mpr ⟨cd, hcd, ?_⟩
    rw [if_pos (by simp [hca, hcc, hact])]
    rw [← hreq, ← hord]

/-- C7 counterexample: in the concrete store `cxDB`, campaign 1 has exactly
one assigned CampaignDemographic row — pointing at attribute 1, which is
globally inactive — so the claim "when at least one assignment exists the
rendered set is exactly the assigned rows" fails: the rendered set is the
active-attribute fallback, which omits assigned attribute 1 and contains
unassigned attribute 2. -/
def cxDB : DB where
  campaigns := [⟨1, "Poll", "", true, 0⟩]
  questions := []
  options := []
  responses := []
  response_details := []
  demographic_attributes :=
    [⟨1, "district", "อำเภอ", "select", 1, false⟩,
     ⟨2, "gender", "เพศ", "select", 2, true⟩]
  demographic_options := []
  campaign_demographics := [⟨1, 1, 1, true, 0⟩]
  next_option_id := 1
  next_response_id := 1
  next_detail_id := 1
  now := 0

/-- The C7 claim as stated, instantiated at `cxDB` and campaign 1, is false:
an assignment exists, yet the rendered attributes are not exactly the
assigned ones (attribute 2 is rendered without being assigned). -/
theorem render_demographics_claim_counterexample :
    ¬ ((cxDB.campaign_demographics.filter (fun cd => cd.campaign_id == 1)) ≠ [] →
        ∀ da : RowDemographicAttribute,
          (da ∈ render_demographic_attrs 1 cxDB ↔
            da ∈ cxDB.demographic_attributes ∧
            ∃ cd ∈ cxDB.campaign_demographics,
              cd.campaign_id = 1 ∧ cd.attribute_id = da.id)) := by
  intro h
  have h2 := h (by decide) ⟨2, "gender", "เพศ", "select", 2, true⟩
  have hmem : (⟨2, "gender", "เพศ", "select", 2, true⟩ : RowDemographicAttribute) ∈
      render_demographic_attrs 1 cxDB := by decide
  have hex := (h2.mp hmem).2
  revert hex
  decide

/-- C7 amended: the attributes used to render a campaign's intake form are —
when the campaign has at least one assignment to a globally ACTIVE
attribute — exactly the active attributes among its assigned rows; otherwise
(no assignments, or assignments only to inactive attributes) every globally
active attribute. -/
theorem render_demographic_attrs_spec (cid : Nat) (db : DB) :
    ((∃ da ∈ db.demographic_attributes, da.is_active = true ∧
        ∃ cd ∈ db.campaign_demographics,
          cd.campaign_id = cid ∧ cd.attribute_id = da.id) →
      ∀ da : RowDemographicAttribute,
        (da ∈ render_demographic_attrs cid db ↔
          da ∈ db.demographic_attributes ∧ da.is_active = true ∧
          ∃ cd ∈ db.campaign_demographics,
            cd.campaign_id = cid ∧ cd.attribute_id = da.id)) ∧
    ((¬ ∃ da ∈ db.demographic_attributes, da.is_active = true ∧
        ∃ cd ∈ db.campaign_demographics,
          cd.campaign_id = cid ∧ cd.attribute_id = da.id) →
      ∀ da : RowDemographicAttribute,
        (da ∈ render_demographic_attrs cid db ↔
          da ∈ db.demographic_attributes ∧ da.is_active = true)) := by
  constructor
  · rintro ⟨da0, hda0, hact0, cd0, hcd0, hcc0, hca0⟩ da
    have hrow0 : (⟨da0, cd0.is_required, cd0.display_order⟩ : CampaignDemoRow) ∈
        get_campaign_demographics cid db :=
      (mem_get_campaign_demographics cid db _).mpr
        ⟨hda0, hact0, cd0, hcd0, hcc0, hca0, rfl, rfl⟩
    have hne : (get_campaign_demographics cid db).isEmpty = false := by
      cases hds : get_campaign_demographics cid db with
      | nil => rw [hds] at hrow0; cases hrow0
      | cons r t => rfl
    have hrender : render_demographic_attrs cid db =
        (get_campaign_demographics cid db).map (fun row => row.attr) := by
      simp only [render_demographic_attrs]
      rw [hne]
      simp
    rw [hrender]
    constructor
    · intro hmem
      obtain ⟨row, hrow, hre⟩ := List.mem_map.mp hmem
      obtain ⟨h1, h2, cd, hcd, hcc, hca, _, _⟩ :=
        (mem_get_campaign_demographics cid db row).mp hrow
      rw [← hre]
      exact ⟨h1, h2, cd, hcd, hcc, hca⟩
    · rintro ⟨h1, h2, cd, hcd, hcc, hca⟩
      refine List.mem_map.mpr
        ⟨⟨da, cd.is_required, cd.display_order⟩, ?_, rfl⟩
      exact (mem_get_campaign_demographics cid db _).mpr
        ⟨h1, h2, cd, hcd, hcc, hca, rfl, rfl⟩
  · intro hno da
    have hds : get_campaign_demographics cid db = [] := by
      cases hds : get_campaign_demographics cid db with
      | nil => rfl
      | cons r t =>
        exfalso
        have hr : r ∈ get_campaign_demographics cid db := by
          rw [hds]
          exact List.mem_cons_self r t
        obtain ⟨h1, h2, cd, hcd, hcc, hca, _, _⟩ :=
          (mem_get_campaign_demographics cid db r).mp hr
        exact hno ⟨r.attr, h1, h2, cd, hcd, hcc, hca⟩
    have hrender : render_demographic_attrs cid db =
        get_demographic_attributes_active db := by
      simp only [render_demographic_attrs]
      rw [hds]
      simp
    rw [hrender]
    unfold get_demographic_attributes_active
    rw [(List.perm_insertionSort _ _).mem_iff, List.mem_filter]

/-- Witness for the amended C7 at the concrete store `wDBcd` (one active
attribute assigned to campaign 1): the rendered set is characterized by the
active-assignment membership condition. -/
theorem render_demographic_attrs_spec_witness :
    (∃ da ∈ wDBcd.demographic_attributes, da.is_active = true ∧
        ∃ cd ∈ wDBcd.campaign_demographics,
          cd.campaign_id = 1 ∧ cd.attribute_id = da.id) ∧
    ((⟨1, "gender", "เพศ", "select", 1, true⟩ : RowDemographicAttribute) ∈
        render_demographic_attrs 1 wDBcd ↔
      (⟨1, "gender", "เพศ", "select", 1, true⟩ : RowDemographicAttribute) ∈
          wDBcd.demographic_attributes ∧
        (⟨1, "gender", "เพศ", "select", 1, true⟩ :
            RowDemographicAttribute).is_active = true ∧
        ∃ cd ∈ wDBcd.campaign_demographics,
          cd.campaign_id = 1 ∧
          cd.attribute_id = (⟨1, "gender", "เพศ", "select", 1, true⟩ :
            RowDemographicAttribute).id) :=
  ⟨by decide,
   (render_demographic_attrs_spec 1 wDBcd).1 (by decide)
     ⟨1, "gender", "เพศ", "select", 1, true⟩⟩
